import Mathlib

/-!
Shallow embedding of the DESAK storefront state core (`src/script.js`):
the static product catalog, the catalog index lookup, the cart manager
(`addToCart`, `removeCartItem`, `changeCartQty`, `clearCart`), the wishlist
manager (`isWishlisted`, `toggleWishlist`), the cart-drawer subtotal
computation (`renderCartDrawer`), the checkout URL builder
(`buildShopifyCheckoutURL`) and the defensive storage loader
(`safeJSON` / `loadJSON` plus the `Array.isArray` coercion applied to
`CART` and `WISHLIST` at load time).

Carts are lists of cart lines, wishlists are lists of product-id strings,
and the catalog index is a list of products looked up by first match on id
(ids in the static catalog are distinct, so this matches the JS object
semantics of `PRODUCTS_INDEX`).  JavaScript numbers holding quantities and
prices are embedded as `Int`; the `qty || 1` truthiness coercion in
`addToCart` becomes an explicit test against `0`.  DOM rendering, toasts
and event wiring are side effects outside the state core and are not
modelled; each state operation is the pure state transformer the JS
function applies to the module-level `CART` / `WISHLIST` variables.
-/

namespace Desak

/-- `SHOP_DOMAIN` constant from script.js. -/
def SHOP_DOMAIN : String := "desak-sak.myshopify.com"

/-- `CART_KEY` local-storage key from script.js. -/
def CART_KEY : String := "desak_desak_cart_v2"

/-- `WISHLIST_KEY` local-storage key from script.js. -/
def WISHLIST_KEY : String := "desak_desak_wishlist_v2"

/-- The JavaScript `String.prototype.trim` builtin used by
`buildShopifyCheckoutURL`: strips leading and trailing whitespace.
Embedded as an executable structural recursion over the characters
(Lean's own `String.trim` is not kernel-reducible). -/
def jsTrim (s : String) : String :=
  String.mk (((s.data.dropWhile Char.isWhitespace).reverse.dropWhile
    Char.isWhitespace).reverse)

/-- A catalog product, as in the static `PRODUCTS` array of script.js. -/
structure Product where
  id : String
  title : String
  price : Int
  image : String
  url : String
  shopify : String
deriving DecidableEq

/-- The static catalog `PRODUCTS` of script.js (all fields verbatim). -/
def PRODUCTS : List Product := [
  { id := "101", title := "Unisex Hoodie", price := 1099,
    image := "https://desak-sak.myshopify.com/cdn/shop/files/Back_2_c_10_584ee972-23d2-4339-b7af-61cba4019ebb.jpg?v=1763120934&width=832",
    url := "https://desak-sak.myshopify.com/products/unisex-hoodie-5?variant=58376455094353", shopify := "" },
  { id := "102", title := "Oslo Grey Hoodie", price := 1399,
    image := "https://via.placeholder.com/800x1000?text=Oslo+Grey+Hoodie",
    url := "https://desak-sak.myshopify.com/products/oslo-grey-hoodie", shopify := "" },
  { id := "103", title := "Arctic White Hoodie", price := 1499,
    image := "https://via.placeholder.com/800x1000?text=Arctic+White+Hoodie",
    url := "https://desak-sak.myshopify.com/products/arctic-white-hoodie", shopify := "" },
  { id := "201", title := "Classic Grey Hoodie", price := 1299,
    image := "https://via.placeholder.com/800x1000?text=Classic+Grey+Hoodie",
    url := "https://desak-sak.myshopify.com/products/classic-grey-hoodie", shopify := "" },
  { id := "202", title := "Beige Fleece Hoodie", price := 2499,
    image := "https://via.placeholder.com/800x1000?text=Beige+Fleece+Hoodie",
    url := "https://desak-sak.myshopify.com/products/beige-fleece-hoodie", shopify := "" },
  { id := "203", title := "Black Oversized Hoodie", price := 2199,
    image := "https://via.placeholder.com/800x1000?text=Black+Oversized+Hoodie",
    url := "https://desak-sak.myshopify.com/products/black-oversized-hoodie", shopify := "" },
  { id := "204", title := "Urban Zip Hoodie", price := 1899,
    image := "https://via.placeholder.com/800x1000?text=Urban+Zip+Hoodie",
    url := "https://desak-sak.myshopify.com/products/urban-zip-hoodie", shopify := "" },
  { id := "301", title := "Milan Beige Sweatshirt", price := 999,
    image := "https://via.placeholder.com/800x1000?text=Milan+Beige+Sweatshirt",
    url := "https://desak-sak.myshopify.com/products/milan-beige-sweatshirt", shopify := "" },
  { id := "302", title := "Harbor Navy Sweatshirt", price := 1099,
    image := "https://via.placeholder.com/800x1000?text=Harbor+Navy+Sweatshirt",
    url := "https://desak-sak.myshopify.com/products/harbor-navy-sweatshirt", shopify := "" },
  { id := "401", title := "Arctic Wool Scarf", price := 699,
    image := "https://via.placeholder.com/800x1000?text=Arctic+Wool+Scarf",
    url := "https://desak-sak.myshopify.com/products/arctic-wool-scarf", shopify := "" },
  { id := "402", title := "Nordic Winter Scarf", price := 799,
    image := "https://via.placeholder.com/800x1000?text=Nordic+Winter+Scarf",
    url := "https://desak-sak.myshopify.com/products/nordic-winter-scarf", shopify := "" }
]

/-- Lookup in the catalog index `PRODUCTS_INDEX` (`PRODUCTS_INDEX[String(id)]`):
the index maps each id to one product, embedded as first-match lookup in a
product list. -/
def findProduct (idx : List Product) (id : String) : Option Product :=
  idx.find? (fun p => p.id == id)

/-- One cart line, as pushed by `addToCart` in script.js. -/
structure CartLine where
  id : String
  title : String
  price : Int
  qty : Int
  img : String
  variant : String
deriving DecidableEq

/-- `findCartItem(id)`: `CART.find(it => String(it.id) === String(id))`. -/
def findCartItem (cart : List CartLine) (id : String) : Option CartLine :=
  cart.find? (fun it => it.id == id)

/-- The in-place `existing.qty = Number(existing.qty) + Number(qty)` mutation
of `addToCart`: adds `q` to the quantity of the first line matching `id`. -/
def addQtyFirst (id : String) (q : Int) : List CartLine → List CartLine
  | [] => []
  | it :: rest =>
      if it.id == id then { it with qty := it.qty + q } :: rest
      else it :: addQtyFirst id q rest

/-- `addToCart(id, qty)` from script.js, as a transformer of the cart state:
unknown id is a no-op (`console.warn` only); an existing line gets `qty`
added to its quantity; otherwise a new line is pushed whose quantity is
`Number(qty || 1)` — embedded as `if qty == 0 then 1 else qty` — copying
title/price/image/variant from the catalog entry. -/
def addToCart (idx : List Product) (id : String) (qty : Int)
    (cart : List CartLine) : List CartLine :=
  match findProduct idx id with
  | none => cart
  | some p =>
      if cart.any (fun it => it.id == id) then addQtyFirst id qty cart
      else cart ++ [{ id := id, title := p.title, price := p.price,
                      qty := if qty == 0 then 1 else qty,
                      img := p.image, variant := p.shopify }]

/-- `removeCartItem(id)`: `CART = CART.filter(it => String(it.id) !== String(id))`. -/
def removeCartItem (id : String) (cart : List CartLine) : List CartLine :=
  cart.filter (fun it => !(it.id == id))

/-- `changeCartQty(id, delta)` from script.js: find the first line whose id
matches (`findIndex`); if none, return unchanged; otherwise add `delta` to
its quantity and splice the line out when the result is `<= 0`. -/
def changeCartQty (id : String) (delta : Int) : List CartLine → List CartLine
  | [] => []
  | it :: rest =>
      if it.id == id then
        if it.qty + delta ≤ 0 then rest
        else { it with qty := it.qty + delta } :: rest
      else it :: changeCartQty id delta rest

/-- `clearCart()` from script.js: the `confirm("Remove all items from cart?")`
dialog result is the Boolean input; when it is `false` the function returns
before touching the cart, otherwise `CART = []`. -/
def clearCart (confirmed : Bool) (cart : List CartLine) : List CartLine :=
  if confirmed then [] else cart

/-- The subtotal accumulation of `renderCartDrawer`:
`subtotal += Number(item.price || 0) * Number(item.qty || 0)` over the cart. -/
def cartSubtotal (cart : List CartLine) : Int :=
  cart.foldl (fun s it => s + it.price * it.qty) 0

/-- The subtotal value `renderCartDrawer` writes to `DOM.cartSubtotal`:
`"0"` when the cart is empty (the early-return branch), otherwise the
accumulated subtotal. -/
def displayedSubtotal (cart : List CartLine) : Int :=
  if cart.isEmpty then 0 else cartSubtotal cart

/-- `isWishlisted(id)`: `WISHLIST.includes(String(id))`. -/
def isWishlisted (w : List String) (id : String) : Bool :=
  w.contains id

/-- `toggleWishlist(id)` from script.js: remove every occurrence when
present, push the id when absent. -/
def toggleWishlist (id : String) (w : List String) : List String :=
  if isWishlisted w id then w.filter (fun x => !(x == id))
  else w ++ [id]

/-- The variant resolution of `buildShopifyCheckoutURL`:
`ci.variant || (PRODUCTS_INDEX[ci.id] && PRODUCTS_INDEX[ci.id].shopify) || ""`. -/
def resolveVariant (idx : List Product) (ci : CartLine) : String :=
  if ci.variant ≠ "" then ci.variant
  else
    match findProduct idx ci.id with
    | some p => p.shopify
    | none => ""

/-- `buildShopifyCheckoutURL()` from script.js: empty string for an empty
cart; otherwise collect `variant:qty` pairs (`pairs.push`) for lines whose
resolved variant is truthy with non-blank trim, and either join them after
`https://SHOP_DOMAIN/cart/` or fall back to the bare origin. -/
def buildShopifyCheckoutURL (idx : List Product) (cart : List CartLine) : String :=
  if cart.isEmpty then ""
  else
    let pairs := cart.foldl (fun acc ci =>
      let variant := resolveVariant idx ci
      if variant ≠ "" ∧ jsTrim variant ≠ "" then
        acc ++ [variant ++ ":" ++ toString ci.qty]
      else acc) []
    if pairs.isEmpty then "https://" ++ SHOP_DOMAIN
    else "https://" ++ SHOP_DOMAIN ++ "/cart/" ++ String.intercalate "," pairs

/-- Specification-side reformulation of the pair collection of
`buildShopifyCheckoutURL`: the `variantRef:qty` pairs of exactly those
lines whose resolved variant reference is non-blank, in cart order. -/
def checkoutPairs (idx : List Product) (cart : List CartLine) : List String :=
  cart.filterMap (fun ci =>
    let variant := resolveVariant idx ci
    if variant ≠ "" ∧ jsTrim variant ≠ "" then
      some (variant ++ ":" ++ toString ci.qty)
    else none)

/-- One user-level state operation on the cart/wishlist state
(the operations bound to UI events in script.js). -/
inductive CartOp where
  | add (id : String) (qty : Int)
  | remove (id : String)
  | changeQty (id : String) (delta : Int)
  | toggle (id : String)

/-- The module-level mutable state of script.js: `CART` and `WISHLIST`. -/
structure ShopState where
  cart : List CartLine
  wish : List String
deriving DecidableEq

/-- Apply one operation to the state. -/
def stepOp (idx : List Product) (s : ShopState) : CartOp → ShopState
  | .add id qty => { s with cart := addToCart idx id qty s.cart }
  | .remove id => { s with cart := removeCartItem id s.cart }
  | .changeQty id d => { s with cart := changeCartQty id d s.cart }
  | .toggle id => { s with wish := toggleWishlist id s.wish }

/-- Apply a sequence of operations to the state. -/
def runOps (idx : List Product) (s : ShopState) (ops : List CartOp) : ShopState :=
  ops.foldl (stepOp idx) s

/-- A JSON value as produced by `JSON.parse`: enough structure to
distinguish sequences (`Array.isArray`) from every other value. -/
inductive JsValue where
  | jnull
  | jbool (b : Bool)
  | jnum (n : Int)
  | jstr (s : String)
  | jarr (xs : List JsValue)
  | jobj

/-- `safeJSON(s, fallback)` from script.js: `JSON.parse` either throws or
yields a value — embedded as a `parse` function into `Except` — and the
catch branch returns the fallback. -/
def safeJSON (parse : String → Except Unit JsValue) (s : String)
    (fallback : JsValue) : JsValue :=
  match parse s with
  | .ok v => v
  | .error _ => fallback

/-- `loadJSON(k, fallback)` from script.js: `localStorage.getItem` is the
`store` map; a missing key returns the fallback, otherwise `safeJSON`. -/
def loadJSON (store : String → Option String)
    (parse : String → Except Unit JsValue) (k : String)
    (fallback : JsValue) : JsValue :=
  match store k with
  | none => fallback
  | some raw => safeJSON parse raw fallback

/-- The `if (!Array.isArray(X)) X = []` coercion applied to `CART` and
`WISHLIST` right after loading: an array keeps its elements, every other
value becomes the empty sequence. -/
def coerceArray : JsValue → List JsValue
  | .jarr xs => xs
  | _ => []

/-- The in-memory `CART` right after the load in script.js
(`loadJSON(CART_KEY, [])` followed by the array coercion). -/
def loadedCart (store : String → Option String)
    (parse : String → Except Unit JsValue) : List JsValue :=
  coerceArray (loadJSON store parse CART_KEY (.jarr []))

/-- The in-memory `WISHLIST` right after the load in script.js
(`loadJSON(WISHLIST_KEY, [])` followed by the array coercion). -/
def loadedWishlist (store : String → Option String)
    (parse : String → Except Unit JsValue) : List JsValue :=
  coerceArray (loadJSON store parse WISHLIST_KEY (.jarr []))

/-- The subtotal fold of `renderCartDrawer`, run from any accumulator,
equals the accumulator plus the sum of `price * qty` over the lines. -/
theorem foldl_price_qty (cart : List CartLine) :
    ∀ a : Int, cart.foldl (fun s it => s + it.price * it.qty) a
      = a + (cart.map (fun l => l.price * l.qty)).sum := by
  induction cart with
  | nil => intro a; simp
  | cons it rest ih =>
      intro a
      simp only [List.foldl_cons, List.map_cons, List.sum_cons, ih]
      ring

/-- `cartSubtotal` is the sum of `price * qty` over the cart lines. -/
theorem cartSubtotal_eq_sum (cart : List CartLine) :
    cartSubtotal cart = (cart.map (fun l => l.price * l.qty)).sum := by
  simpa using foldl_price_qty cart 0

/-- `addQtyFirst` does not change the sequence of line ids. -/
theorem addQtyFirst_map_id (id : String) (q : Int) :
    ∀ cart : List CartLine,
      (addQtyFirst id q cart).map CartLine.id = cart.map CartLine.id := by
  intro cart
  induction cart with
  | nil => rfl
  | cons it rest ih =>
      simp only [addQtyFirst]
      split
      · simp
      · simpa using ih

/-- `changeCartQty` on a cart with no matching line is a no-op. -/
theorem changeCartQty_no_match (id : String) (d : Int) :
    ∀ cart : List CartLine, (∀ l ∈ cart, l.id ≠ id) →
      changeCartQty id d cart = cart := by
  intro cart
  induction cart with
  | nil => intro _; rfl
  | cons it rest ih =>
      intro h
      have hhead : it.id ≠ id := h it (List.mem_cons_self it rest)
      simp only [changeCartQty, beq_iff_eq, hhead, if_false]
      rw [ih (fun l hl => h l (List.mem_cons_of_mem it hl))]

/-- `changeCartQty` skips over a prefix with no matching line. -/
theorem changeCartQty_append_no_match (id : String) (d : Int) :
    ∀ (cart ys : List CartLine), (∀ l ∈ cart, l.id ≠ id) →
      changeCartQty id d (cart ++ ys) = cart ++ changeCartQty id d ys := by
  intro cart ys
  induction cart with
  | nil => intro _; rfl
  | cons it rest ih =>
      intro h
      have hhead : it.id ≠ id := h it (List.mem_cons_self it rest)
      simp only [List.cons_append, changeCartQty, beq_iff_eq, hhead, if_false,
        List.append_eq]
      rw [ih (fun l hl => h l (List.mem_cons_of_mem it hl))]

/-- Adding `n` to the quantity of the first line matching `id` and then
changing that line's quantity by `-n` restores the cart, provided every
line's quantity is at least 1. -/
theorem changeCartQty_cancel_addQtyFirst (id : String) (n : Int) :
    ∀ cart : List CartLine, (∀ l ∈ cart, 1 ≤ l.qty) →
      changeCartQty id (-n) (addQtyFirst id n cart) = cart := by
  intro cart
  induction cart with
  | nil => intro _; rfl
  | cons it rest ih =>
      intro h
      have hq : 1 ≤ it.qty := h it (List.mem_cons_self it rest)
      simp only [addQtyFirst]
      split
      · simp only [changeCartQty]
        split
        · split
          · omega
          · cases it with
            | mk i t p q im v =>
                have hq2 : q + n + -n = q := by omega
                simp [hq2]
        · simp_all
      · simp only [changeCartQty]
        split
        · simp_all
        · rw [ih (fun l hl => h l (List.mem_cons_of_mem it hl))]

/-- `addToCart` keeps the sequence of cart line ids duplicate-free. -/
theorem addToCart_nodup (idx : List Product) (id : String) (qty : Int)
    (cart : List CartLine) (h : (cart.map CartLine.id).Nodup) :
    ((addToCart idx id qty cart).map CartLine.id).Nodup := by
  unfold addToCart
  cases hp : findProduct idx id with
  | none => exact h
  | some p =>
      simp only
      split
      · rw [addQtyFirst_map_id]; exact h
      · rename_i hany
        have hnot : id ∉ cart.map CartLine.id := by
          intro hmem
          rcases List.mem_map.mp hmem with ⟨l, hl, hlid⟩
          have hany2 : cart.any (fun it => it.id == id) = true :=
            List.any_eq_true.mpr ⟨l, hl, beq_iff_eq.mpr hlid⟩
          simp_all
        simp [List.nodup_append, h, hnot]

/-- The ids of `changeCartQty`'s result form a sublist of the original ids. -/
theorem changeCartQty_map_id_sublist (id : String) (d : Int) :
    ∀ cart : List CartLine,
      ((changeCartQty id d cart).map CartLine.id).Sublist (cart.map CartLine.id) := by
  intro cart
  induction cart with
  | nil => simp [changeCartQty]
  | cons it rest ih =>
      rw [changeCartQty]
      split
      · split
        · exact (List.Sublist.refl _).cons _
        · exact List.Sublist.refl _
      · exact ih.cons₂ _

/-- `changeCartQty` keeps the sequence of cart line ids duplicate-free. -/
theorem changeCartQty_nodup (id : String) (d : Int) (cart : List CartLine)
    (h : (cart.map CartLine.id).Nodup) :
    ((changeCartQty id d cart).map CartLine.id).Nodup :=
  h.sublist (changeCartQty_map_id_sublist id d cart)

/-- `removeCartItem` keeps the sequence of cart line ids duplicate-free. -/
theorem removeCartItem_nodup (id : String) (cart : List CartLine)
    (h : (cart.map CartLine.id).Nodup) :
    ((removeCartItem id cart).map CartLine.id).Nodup :=
  h.sublist (List.Sublist.map CartLine.id (List.filter_sublist cart))

/-- `toggleWishlist` keeps the wishlist duplicate-free. -/
theorem toggleWishlist_nodup (id : String) (w : List String) (h : w.Nodup) :
    (toggleWishlist id w).Nodup := by
  unfold toggleWishlist isWishlisted
  split
  · exact h.filter _
  · rename_i hc
    have hnot : id ∉ w := by
      intro hmem
      exact hc (List.elem_iff.mpr hmem)
    simp [List.nodup_append, h, hnot]

/-- The pair-collecting fold of `buildShopifyCheckoutURL`, run from any
accumulator, appends exactly the `checkoutPairs`. -/
theorem checkout_foldl_eq (idx : List Product) :
    ∀ (cart : List CartLine) (acc : List String),
      cart.foldl (fun acc ci =>
        let variant := resolveVariant idx ci
        if variant ≠ "" ∧ jsTrim variant ≠ "" then
          acc ++ [variant ++ ":" ++ toString ci.qty]
        else acc) acc
      = acc ++ checkoutPairs idx cart := by
  intro cart
  induction cart with
  | nil => intro acc; simp [checkoutPairs]
  | cons ci rest ih =>
      intro acc
      simp only [List.foldl_cons]
      by_cases hcond : resolveVariant idx ci ≠ "" ∧ jsTrim (resolveVariant idx ci) ≠ ""
      · rw [if_pos hcond, ih]
        have hstep : checkoutPairs idx (ci :: rest)
            = (resolveVariant idx ci ++ ":" ++ toString ci.qty) :: checkoutPairs idx rest := by
          simp only [checkoutPairs, List.filterMap_cons]
          rw [if_pos hcond]
        rw [hstep]
        simp
      · rw [if_neg hcond, ih]
        have hstep : checkoutPairs idx (ci :: rest) = checkoutPairs idx rest := by
          simp only [checkoutPairs, List.filterMap_cons]
          rw [if_neg hcond]
        rw [hstep]

/-- `checkoutPairs` is empty exactly when no line resolves to a variant
reference with non-blank trim. -/
theorem checkoutPairs_eq_nil_iff (idx : List Product) (cart : List CartLine) :
    checkoutPairs idx cart = [] ↔ ∀ ci ∈ cart, jsTrim (resolveVariant idx ci) = "" := by
  unfold checkoutPairs
  rw [List.filterMap_eq_nil_iff]
  constructor
  · intro h ci hci
    by_contra hne
    have hv : resolveVariant idx ci ≠ "" := by
      intro hempty
      apply hne
      rw [hempty]
      decide
    have hfc : (if resolveVariant idx ci ≠ "" ∧ jsTrim (resolveVariant idx ci) ≠ "" then
        some (resolveVariant idx ci ++ ":" ++ toString ci.qty) else none) = none := h ci hci
    rw [if_pos ⟨hv, hne⟩] at hfc
    exact Option.noConfusion hfc
  · intro h ci hci
    show (if resolveVariant idx ci ≠ "" ∧ jsTrim (resolveVariant idx ci) ≠ "" then
        some (resolveVariant idx ci ++ ":" ++ toString ci.qty) else none) = none
    rw [if_neg]
    intro hcond
    exact hcond.2 (h ci hci)

/-- For a non-empty cart, `buildShopifyCheckoutURL` joins the
`checkoutPairs` after the store origin's `/cart/` path, or falls back to
the bare origin when no pair was collected. -/
theorem checkout_url_nonempty_eq (idx : List Product) (cart : List CartLine)
    (hne : cart ≠ []) :
    buildShopifyCheckoutURL idx cart =
      if checkoutPairs idx cart = [] then "https://" ++ SHOP_DOMAIN
      else "https://" ++ SHOP_DOMAIN ++ "/cart/"
        ++ String.intercalate "," (checkoutPairs idx cart) := by
  cases cart with
  | nil => exact absurd rfl hne
  | cons ci rest =>
      show (if (ci :: rest).isEmpty = true then "" else _) = _
      rw [List.isEmpty_cons]
      simp only [Bool.false_eq_true, if_false, checkout_foldl_eq idx (ci :: rest) [],
        List.nil_append]
      by_cases hp : checkoutPairs idx (ci :: rest) = []
      · simp [hp]
      · simp only [hp, if_false]
        have : (checkoutPairs idx (ci :: rest)).isEmpty = false := by
          simpa [List.isEmpty_iff] using hp
        simp [this]

/-- The bare store origin is strictly shorter than any `/cart/` deep link,
so the two URL shapes never coincide. -/
theorem checkout_url_cart_ne_origin (s : String) :
    "https://" ++ SHOP_DOMAIN ++ "/cart/" ++ s ≠ "https://" ++ SHOP_DOMAIN := by
  intro h
  have hlen := congrArg String.length h
  have h6 : ("/cart/" : String).length = 6 := by decide
  simp only [String.length_append, h6] at hlen
  omega

/-- C2: for every cart the displayed subtotal equals the sum over the lines
of price times quantity, and is 0 for the empty cart; from the empty cart,
`addToCart("101",1)` then `addToCart("101",2)` against the static catalog
(product 101 priced 1099) yields exactly one line, id "101" with qty 3, and
the displayed subtotal is 3297. -/
theorem displayed_subtotal_spec :
    (∀ cart : List CartLine,
        displayedSubtotal cart = (cart.map (fun l => l.price * l.qty)).sum)
    ∧ displayedSubtotal [] = 0
    ∧ (addToCart PRODUCTS "101" 2 (addToCart PRODUCTS "101" 1 [])).map
        (fun l => (l.id, l.qty)) = [("101", 3)]
    ∧ displayedSubtotal (addToCart PRODUCTS "101" 2 (addToCart PRODUCTS "101" 1 [])) = 3297 := by
  refine ⟨?_, rfl, by decide, by decide⟩
  intro cart
  cases cart with
  | nil => rfl
  | cons it rest => simp [displayedSubtotal, cartSubtotal_eq_sum]

/-- C3 counterexample: on the empty cart — where no line has a non-empty
variant reference — the checkout URL is the empty string, not the bare
store origin the claim promises. -/
theorem checkout_url_empty_cart_counterexample :
    buildShopifyCheckoutURL PRODUCTS [] = "" ∧
      buildShopifyCheckoutURL PRODUCTS [] ≠ "https://" ++ SHOP_DOMAIN := by
  exact ⟨rfl, by decide⟩

/-- C3 (amended to non-empty carts): for every non-empty cart the checkout
URL joins the `variantRef:qty` pairs of exactly the lines whose resolved
variant reference is non-blank, comma-separated after the store origin's
`/cart/` path, falling back to the bare origin when no such line exists;
the cart `[variant "V1" qty 2, no-reference qty 1]` yields a URL containing
only the pair `V1:2`. -/
theorem checkout_url_spec :
    (∀ (idx : List Product) (cart : List CartLine), cart ≠ [] →
        buildShopifyCheckoutURL idx cart =
          if checkoutPairs idx cart = [] then "https://" ++ SHOP_DOMAIN
          else "https://" ++ SHOP_DOMAIN ++ "/cart/"
            ++ String.intercalate "," (checkoutPairs idx cart))
    ∧ buildShopifyCheckoutURL PRODUCTS
        [{ id := "901", title := "P1", price := 100, qty := 2, img := "", variant := "V1" },
         { id := "902", title := "P2", price := 50, qty := 1, img := "", variant := "" }]
      = "https://desak-sak.myshopify.com/cart/V1:2" := by
  exact ⟨checkout_url_nonempty_eq, by decide⟩

/-- C3 witness: the amended equation evaluated on a concrete one-line cart
with no variant reference. -/
theorem checkout_url_spec_witness :
    buildShopifyCheckoutURL PRODUCTS
        [{ id := "902", title := "P2", price := 50, qty := 1, img := "", variant := "" }]
      = if checkoutPairs PRODUCTS
            [{ id := "902", title := "P2", price := 50, qty := 1, img := "", variant := "" }] = []
        then "https://" ++ SHOP_DOMAIN
        else "https://" ++ SHOP_DOMAIN ++ "/cart/"
          ++ String.intercalate "," (checkoutPairs PRODUCTS
              [{ id := "902", title := "P2", price := 50, qty := 1, img := "", variant := "" }]) :=
  checkout_url_spec.1 PRODUCTS _ (by decide)

/-- C6: adding an id that is missing from the catalog index leaves the
cart completely unchanged, for every index, id, quantity and prior cart. -/
theorem addToCart_unknown_noop :
    ∀ (idx : List Product) (id : String) (qty : Int) (cart : List CartLine),
      findProduct idx id = none → addToCart idx id qty cart = cart := by
  intro idx id qty cart h
  unfold addToCart
  rw [h]

/-- C6 witness: id "999" is not in the static catalog, and adding it to a
one-line cart changes nothing. -/
theorem addToCart_unknown_noop_witness :
    findProduct PRODUCTS "999" = none ∧
      addToCart PRODUCTS "999" 5
        [{ id := "101", title := "Unisex Hoodie", price := 1099, qty := 1,
           img := "", variant := "" }]
      = [{ id := "101", title := "Unisex Hoodie", price := 1099, qty := 1,
           img := "", variant := "" }] :=
  ⟨by decide, addToCart_unknown_noop PRODUCTS "999" 5 _ (by decide)⟩

/-- C8: `toggleWishlist` appends the id when absent and removes it when
present (single membership), and applying it twice restores the original
membership state. -/
theorem toggleWishlist_spec :
    ∀ (w : List String) (id : String),
      (id ∉ w → toggleWishlist id w = w ++ [id])
      ∧ (id ∈ w → toggleWishlist id w = w.filter (fun x => !(x == id)))
      ∧ (id ∈ toggleWishlist id w ↔ id ∉ w)
      ∧ (∀ x, x ∈ toggleWishlist id (toggleWishlist id w) ↔ x ∈ w) := by
  intro w id
  refine ⟨?_, ?_, ?_, ?_⟩
  · intro h
    simp [toggleWishlist, isWishlisted, List.elem_iff, h]
  · intro h
    simp [toggleWishlist, isWishlisted, List.elem_iff, h]
  · by_cases h : id ∈ w <;> simp [toggleWishlist, isWishlisted, List.elem_iff, h]
  · intro x
    by_cases h : id ∈ w
    · have h1 : id ∉ w.filter (fun x => !(x == id)) := by simp
      simp only [toggleWishlist, isWishlisted, List.elem_iff, h, if_pos, h1, if_neg,
        List.mem_append, List.mem_filter, List.mem_singleton]
      by_cases hx : x = id
      · subst hx; simp [h]
      · simp [hx]
    · have h2 : id ∈ w ++ [id] := by simp
      simp only [toggleWishlist, isWishlisted, List.elem_iff, h, if_neg, h2, if_pos,
        List.mem_filter, List.mem_append, List.mem_singleton]
      by_cases hx : x = id
      · subst hx; simp [h]
      · simp [hx]

/-- C8 witness: toggling "201" into the empty wishlist appends it. -/
theorem toggleWishlist_spec_witness :
    toggleWishlist "201" [] = [] ++ ["201"] :=
  (toggleWishlist_spec [] "201").1 (by simp)

/-- C9 counterexample: when the `confirm` dialog inside `clearCart` is
declined, a non-empty cart stays non-empty — the emptying is not
unconditional, and the prompt is inside the operation, not the caller. -/
theorem clearCart_not_unconditional :
    clearCart false
        [{ id := "101", title := "Unisex Hoodie", price := 1099, qty := 1,
           img := "", variant := "" }] ≠ [] := by
  decide

/-- C9 (amended): `clearCart` empties the cart exactly when the
confirmation dialog — which sits inside `clearCart` itself — is accepted;
a declined confirmation leaves the cart untouched. -/
theorem clearCart_spec :
    ∀ cart : List CartLine, clearCart true cart = [] ∧ clearCart false cart = cart := by
  intro cart
  exact ⟨rfl, rfl⟩

/-- C10: the checkout URL of the empty cart is the empty string, and the
bare store origin is produced exactly for a non-empty cart in which every
line's resolved variant reference is blank. -/
theorem checkout_url_origin_iff :
    (∀ idx : List Product, buildShopifyCheckoutURL idx [] = "")
    ∧ ∀ (idx : List Product) (cart : List CartLine),
        buildShopifyCheckoutURL idx cart = "https://" ++ SHOP_DOMAIN ↔
          (cart ≠ [] ∧ ∀ ci ∈ cart, jsTrim (resolveVariant idx ci) = "") := by
  constructor
  · intro idx
    rfl
  · intro idx cart
    constructor
    · intro h
      cases cart with
      | nil =>
          rw [show buildShopifyCheckoutURL idx [] = "" from rfl] at h
          exact absurd h (by decide)
      | cons ci rest =>
          refine ⟨by simp, ?_⟩
          rw [← checkoutPairs_eq_nil_iff]
          by_contra hp
          rw [checkout_url_nonempty_eq idx (ci :: rest) (by simp), if_neg hp] at h
          exact checkout_url_cart_ne_origin _ h
    · rintro ⟨hne, hall⟩
      rw [checkout_url_nonempty_eq idx cart hne,
        if_pos ((checkoutPairs_eq_nil_iff idx cart).mpr hall)]

/-- C10 witness: a one-line cart whose line has no variant reference gets
the bare store origin. -/
theorem checkout_url_origin_iff_witness :
    buildShopifyCheckoutURL PRODUCTS
        [{ id := "902", title := "P2", price := 50, qty := 1, img := "", variant := "" }]
      = "https://" ++ SHOP_DOMAIN :=
  (checkout_url_origin_iff.2 PRODUCTS
      [{ id := "902", title := "P2", price := 50, qty := 1, img := "", variant := "" }]).mpr
    ⟨by decide, by decide⟩

/-- A map whose function fixes every element of the list is the identity. -/
theorem map_fix_of_mem {α : Type} (f : α → α) :
    ∀ l : List α, (∀ x ∈ l, f x = x) → l.map f = l
  | [], _ => rfl
  | x :: xs, h => by
      simp only [List.map_cons, h x (List.mem_cons_self x xs)]
      rw [map_fix_of_mem f xs (fun y hy => h y (List.mem_cons_of_mem x hy))]

/-- On a duplicate-free cart holding a line `l` for `id`, `changeCartQty`
removes the line when `l.qty + delta ≤ 0` and otherwise rewrites exactly
that line's quantity to `l.qty + delta`. -/
theorem changeCartQty_found :
    ∀ (cart : List CartLine) (id : String) (delta : Int) (l : CartLine),
      (cart.map CartLine.id).Nodup → l ∈ cart → l.id = id →
      changeCartQty id delta cart =
        if l.qty + delta ≤ 0 then cart.filter (fun it => !(it.id == id))
        else cart.map (fun it =>
          if it.id == id then { it with qty := it.qty + delta } else it) := by
  intro cart id delta
  induction cart with
  | nil =>
      intro l _ hl _
      exact absurd hl (List.not_mem_nil l)
  | cons it rest ih =>
      intro l hnd hl hlid
      rw [List.map_cons, List.nodup_cons] at hnd
      have hnd' := hnd
      by_cases hb : it.id = id
      · have hl_eq : l = it := by
          rcases List.mem_cons.mp hl with h | h
          · exact h
          · exact absurd (by rw [hb, ← hlid]; exact List.mem_map.mpr ⟨l, h, rfl⟩) hnd'.1
        rw [hl_eq]
        have hrest : ∀ x ∈ rest, x.id ≠ id := by
          intro x hx hxid
          exact hnd'.1 (by rw [hb, ← hxid]; exact List.mem_map.mpr ⟨x, hx, rfl⟩)
        have hfilter : rest.filter (fun x => !(x.id == id)) = rest :=
          List.filter_eq_self.mpr (fun x hx => by simpa using hrest x hx)
        have hmap : rest.map (fun x =>
            if x.id == id then { x with qty := x.qty + delta } else x) = rest :=
          map_fix_of_mem _ rest (fun x hx => by simp [hrest x hx])
        rw [changeCartQty]
        simp only [hb, beq_self_eq_true, if_true, List.filter_cons, List.map_cons,
          Bool.not_true, Bool.false_eq_true, if_false, hfilter, hmap]
      · have hl_rest : l ∈ rest := by
          rcases List.mem_cons.mp hl with h | h
          · exact absurd (by rw [← h]; exact hlid) hb
          · exact h
        have hbne : (it.id == id) = false := by simp [hb]
        rw [changeCartQty]
        simp only [hbne, Bool.false_eq_true, if_false]
        rw [ih l hnd'.2 hl_rest hlid]
        simp only [List.filter_cons, List.map_cons, hbne, Bool.not_false, if_true,
          Bool.false_eq_true, if_false]
        split <;> rfl

/-- C1: every sequence of cart operations (`addToCart`, `removeCartItem`,
`changeCartQty`) and wishlist operations (`toggleWishlist`) applied to a
duplicate-free state keeps the cart line ids and the wishlist entries
duplicate-free. -/
theorem cart_wishlist_nodup_invariant :
    ∀ (idx : List Product) (ops : List CartOp) (s : ShopState),
      (s.cart.map CartLine.id).Nodup → s.wish.Nodup →
      ((runOps idx s ops).cart.map CartLine.id).Nodup
        ∧ (runOps idx s ops).wish.Nodup := by
  intro idx ops
  induction ops with
  | nil =>
      intro s h1 h2
      exact ⟨h1, h2⟩
  | cons op rest ih =>
      intro s h1 h2
      refine ih (stepOp idx s op) ?_ ?_
      · cases op with
        | add id qty => exact addToCart_nodup idx id qty s.cart h1
        | remove id => exact removeCartItem_nodup id s.cart h1
        | changeQty id d => exact changeCartQty_nodup id d s.cart h1
        | toggle id => exact h1
      · cases op with
        | add id qty => exact h2
        | remove id => exact h2
        | changeQty id d => exact h2
        | toggle id => exact toggleWishlist_nodup id s.wish h2

/-- C1 witness: a concrete operation sequence run from the empty state
keeps cart ids and wishlist entries duplicate-free. -/
theorem cart_wishlist_nodup_invariant_witness :
    ((runOps PRODUCTS ⟨[], []⟩
        [CartOp.add "101" 1, CartOp.toggle "201", CartOp.add "101" 2,
         CartOp.changeQty "101" (-1), CartOp.toggle "201",
         CartOp.remove "102"]).cart.map CartLine.id).Nodup
    ∧ (runOps PRODUCTS ⟨[], []⟩
        [CartOp.add "101" 1, CartOp.toggle "201", CartOp.add "101" 2,
         CartOp.changeQty "101" (-1), CartOp.toggle "201",
         CartOp.remove "102"]).wish.Nodup :=
  cart_wishlist_nodup_invariant PRODUCTS
    [CartOp.add "101" 1, CartOp.toggle "201", CartOp.add "101" 2,
     CartOp.changeQty "101" (-1), CartOp.toggle "201", CartOp.remove "102"]
    ⟨[], []⟩ (by simp) (by simp)

/-- C4: on a duplicate-free cart holding a line for `id`, `changeCartQty`
adds `delta` to that line's quantity, removing the line when the result is
at most 0; on a cart with no line for `id` it is a no-op; and
`changeCartQty("101", -5)` on a single line with qty 3 removes the line,
after which the displayed subtotal is 0. -/
theorem changeCartQty_spec :
    (∀ (cart : List CartLine) (id : String) (delta : Int) (l : CartLine),
        (cart.map CartLine.id).Nodup → l ∈ cart → l.id = id →
        changeCartQty id delta cart =
          if l.qty + delta ≤ 0 then cart.filter (fun it => !(it.id == id))
          else cart.map (fun it =>
            if it.id == id then { it with qty := it.qty + delta } else it))
    ∧ (∀ (cart : List CartLine) (id : String) (delta : Int),
        (∀ l ∈ cart, l.id ≠ id) → changeCartQty id delta cart = cart)
    ∧ changeCartQty "101" (-5)
        [{ id := "101", title := "Unisex Hoodie", price := 1099, qty := 3,
           img := "", variant := "" }] = []
    ∧ displayedSubtotal (changeCartQty "101" (-5)
        [{ id := "101", title := "Unisex Hoodie", price := 1099, qty := 3,
           img := "", variant := "" }]) = 0 := by
  exact ⟨changeCartQty_found,
    fun cart id delta h => changeCartQty_no_match id delta cart h,
    by decide, by decide⟩

/-- C4 witness: the quantity-change equation evaluated on a concrete
one-line cart (qty 3, delta -5, so the line is removed). -/
theorem changeCartQty_spec_witness :
    changeCartQty "101" (-5)
        [{ id := "101", title := "Unisex Hoodie", price := 1099, qty := 3,
           img := "", variant := "" }]
      = if ({ id := "101", title := "Unisex Hoodie", price := 1099, qty := 3,
              img := "", variant := "" } : CartLine).qty + (-5) ≤ 0
        then [({ id := "101", title := "Unisex Hoodie", price := 1099, qty := 3,
                 img := "", variant := "" } : CartLine)].filter
            (fun it => !(it.id == "101"))
        else [({ id := "101", title := "Unisex Hoodie", price := 1099, qty := 3,
                 img := "", variant := "" } : CartLine)].map
            (fun it => if it.id == "101" then { it with qty := it.qty + (-5) } else it) :=
  changeCartQty_spec.1
    [{ id := "101", title := "Unisex Hoodie", price := 1099, qty := 3,
       img := "", variant := "" }]
    "101" (-5)
    { id := "101", title := "Unisex Hoodie", price := 1099, qty := 3,
      img := "", variant := "" }
    (by decide) (by decide) (by decide)

/-- C5: for a catalog product id, a quantity `n ≥ 1` and a cart whose
lines all carry quantity at least 1 (the data-model invariant on cart
lines), `addToCart(id, n)` followed by `changeCartQty(id, -n)` restores
the cart exactly: a newly pushed line is removed again and an incremented
line returns to its previous quantity. -/
theorem add_then_changeQty_cancel :
    ∀ (idx : List Product) (cart : List CartLine) (id : String) (n : Int),
      (findProduct idx id).isSome = true → 1 ≤ n → (∀ l ∈ cart, 1 ≤ l.qty) →
      changeCartQty id (-n) (addToCart idx id n cart) = cart := by
  intro idx cart id n hsome hn hq
  rcases Option.isSome_iff_exists.mp hsome with ⟨p, hp⟩
  unfold addToCart
  rw [hp]
  dsimp only
  by_cases hany : cart.any (fun it => it.id == id) = true
  · rw [if_pos hany]
    exact changeCartQty_cancel_addQtyFirst id n cart hq
  · rw [if_neg hany]
    have hno : ∀ l ∈ cart, l.id ≠ id := by
      intro l hl hlid
      exact hany (List.any_eq_true.mpr ⟨l, hl, beq_iff_eq.mpr hlid⟩)
    rw [changeCartQty_append_no_match id (-n) cart _ hno]
    have hn0 : ¬ (n = 0) := by omega
    have harith : n + -n ≤ 0 := by omega
    simp [changeCartQty, hn0, harith]

/-- C5 witness: adding 3 of product 101 to a cart already holding 2 of it
and then changing the quantity by -3 restores the original cart. -/
theorem add_then_changeQty_cancel_witness :
    changeCartQty "101" (-3) (addToCart PRODUCTS "101" 3
        [{ id := "101", title := "Unisex Hoodie", price := 1099, qty := 2,
           img := "", variant := "" }])
      = [{ id := "101", title := "Unisex Hoodie", price := 1099, qty := 2,
           img := "", variant := "" }] :=
  add_then_changeQty_cancel PRODUCTS
    [{ id := "101", title := "Unisex Hoodie", price := 1099, qty := 2,
       img := "", variant := "" }]
    "101" 3 (by decide) (by decide) (by decide)

/-- C7: loading the cart or the wishlist from a storage value that is
absent, fails to parse, or parses to something that is not a sequence
yields the empty sequence in memory; the load functions are total, so no
error reaches the caller. -/
theorem load_fallback_empty :
    ∀ (store : String → Option String) (parse : String → Except Unit JsValue),
      (store CART_KEY = none → loadedCart store parse = [])
      ∧ (∀ raw, store CART_KEY = some raw → parse raw = .error () →
          loadedCart store parse = [])
      ∧ (∀ raw v, store CART_KEY = some raw → parse raw = .ok v →
          (∀ xs, v ≠ .jarr xs) → loadedCart store parse = [])
      ∧ (store WISHLIST_KEY = none → loadedWishlist store parse = [])
      ∧ (∀ raw, store WISHLIST_KEY = some raw → parse raw = .error () →
          loadedWishlist store parse = [])
      ∧ (∀ raw v, store WISHLIST_KEY = some raw → parse raw = .ok v →
          (∀ xs, v ≠ .jarr xs) → loadedWishlist store parse = []) := by
  intro store parse
  refine ⟨?_, ?_, ?_, ?_, ?_, ?_⟩
  · intro h
    unfold loadedCart loadJSON
    rw [h]
    rfl
  · intro raw h he
    unfold loadedCart loadJSON safeJSON
    rw [h]
    dsimp only
    rw [he]
    rfl
  · intro raw v h hv hna
    unfold loadedCart loadJSON safeJSON
    rw [h]
    dsimp only
    rw [hv]
    cases v <;> first | rfl | exact absurd rfl (hna _)
  · intro h
    unfold loadedWishlist loadJSON
    rw [h]
    rfl
  · intro raw h he
    unfold loadedWishlist loadJSON safeJSON
    rw [h]
    dsimp only
    rw [he]
    rfl
  · intro raw v h hv hna
    unfold loadedWishlist loadJSON safeJSON
    rw [h]
    dsimp only
    rw [hv]
    cases v <;> first | rfl | exact absurd rfl (hna _)

/-- C7 witness: an empty storage yields an empty in-memory cart. -/
theorem load_fallback_empty_witness :
    loadedCart (fun _ => none) (fun _ => Except.error ()) = [] :=
  (load_fallback_empty (fun _ => none) (fun _ => Except.error ())).1 rfl

end Desak
